import Mathlib

/-!
Verification of the go-req HTTP load generator against its specification.

The repository has three Go source variants of the same tool:
* `main.go` — the basic variant (no outcome channels);
* `src/unnamed/part_001` — the counting variant (success/error channels, no latency samples);
* `src/unnamed/part_000` — the duration-sampling variant (latency samples, percentiles,
  `--duration`, final report).

The definitions below are shallow embeddings of the Go functions.  `time.Duration`
values are nanosecond counts; all observed latencies are nonnegative, so durations are
modelled as `Nat`.  Go `float64` arithmetic on the fixed percentile constants
0.90 / 0.95 / 0.99 is modelled by exact rationals: for these constants and any sample
count below 2^50 the rounded double product has the same ceiling as the exact rational
product, so the model agrees with `math.Ceil` on every reachable input.
-/

namespace GoReq

/-- Go `time.Duration` in nanoseconds (all values observed by the program are ≥ 0). -/
abbrev Duration := Nat

/-- Character-level model of Go `strings.Split(s, ":")` (the separator is the single
character `:`). `strings.Split("", ":")` is `[""]`, matching the `[[]]` base case. -/
def splitCharsOnColon : List Char → List (List Char)
  | [] => [[]]
  | c :: rest =>
    if c = ':' then [] :: splitCharsOnColon rest
    else
      match splitCharsOnColon rest with
      | [] => [[c]]
      | p :: ps => (c :: p) :: ps

/-- Go `strings.Split(header, ":")` as used by every `doRequest` variant. -/
def splitOnColon (s : String) : List String :=
  (splitCharsOnColon s.toList).map fun cs => String.mk cs

/-- The malformed-header test `len(headerParts) != 2` shared by all variants. -/
def malformedHeader (h : String) : Bool :=
  (splitOnColon h).length != 2

/-- Whether some configured header fails the `len(headerParts) != 2` check. -/
def hasMalformedHeader (headers : List String) : Bool :=
  headers.any malformedHeader

/-- The two sequential clamps of `percentile` (part_000 lines 149–154):
`if idx < 0 { idx = 0 }` then `if idx >= len(durations) { idx = len(durations) - 1 }`. -/
def clampSeq (idx n : ℤ) : ℤ :=
  let i1 := if idx < 0 then 0 else idx
  if n ≤ i1 then n - 1 else i1

/-- Embedding of `percentile` (part_000 lines 144–156): empty input returns 0,
otherwise index `int(math.Ceil(p*float64(n))) - 1` is clamped and used to index the
slice.  `math.Ceil` over the exact rational product models the float computation;
the clamps keep the index in bounds, so the `getD` default 0 is never consulted. -/
def percentile (durations : List Duration) (p : ℚ) : Duration :=
  if durations.length = 0 then 0
  else
    durations.getD (clampSeq (⌈p * (durations.length : ℚ)⌉ - 1) (durations.length : ℤ)).toNat 0

/-- The specification's formula: element at index `ceil(p*n) - 1` clamped to
`[0, n-1]` (nearest-rank percentile). -/
def clampedRankIndex (p : ℚ) (n : ℕ) : ℤ :=
  min (max (⌈p * (n : ℚ)⌉ - 1) 0) ((n : ℤ) - 1)

/-- Modelled from the spec's words (nearest-rank formula), for comparison with
`percentile` as embedded from the source. -/
def percentileSpec (durations : List Duration) (p : ℚ) : Duration :=
  durations.getD (clampedRankIndex p durations.length).toNat 0

/-- Embedding of the average computation of `printMetrics` (part_000 lines 104–110):
`avg` starts at 0; when samples exist, they are summed with `+=` and divided by the
count using Go's integer division on `time.Duration` (int64). -/
def avgDuration (successDurations : List Duration) : Duration :=
  if 0 < successDurations.length then successDurations.sum / successDurations.length
  else 0

/-- One line of the error breakdown, `fmt.Sprintf("Error %s: %d\n", k, v)`
(part_000 line 96). -/
def errorLine (kv : String × Nat) : String :=
  "Error " ++ kv.1 ++ ": " ++ toString kv.2 ++ "\n"

/-- The lines of the error breakdown for one enumeration of `errorMap`. -/
def errorLines (errEnum : List (String × Nat)) : List String :=
  errEnum.map errorLine

/-- Embedding of the `formattedErrors` accumulation (part_000 lines 89–98): the
string is built by `+=` over `for k, v := range errorMap`.  Go map iteration order
is unspecified, so the enumeration `errEnum` of the tally is a parameter: any list
of the map's key/value pairs is a possible iteration. -/
def formattedErrors (errEnum : List (String × Nat)) : String :=
  errEnum.foldl (fun acc kv => acc ++ errorLine kv) ""

/-- The periodic-render guard of the dispatch loop (part_000 line 72):
`time.Since(lastPrint) <= 1*time.Second`, times in nanoseconds. -/
def renderGuard (sinceLastPrintNs : Nat) : Bool :=
  sinceLastPrintNs ≤ 1000000000

/-- What one `default` branch iteration of the part_000 dispatch loop prints and
whether it exits (lines 71–79): `renders` lists the `printTimes` flag of each
`printMetrics` call in order; `exitCode` is the argument of `os.Exit` if reached. -/
structure BranchResult where
  renders : List Bool
  exitCode : Option Nat
deriving DecidableEq

/-- Embedding of part_000 lines 71–79: first the periodic render guarded by
`time.Since(lastPrint) <= 1*time.Second` with `printTimes = false`, then, if
`*duration > 0 && time.Since(started) > *duration`, a final render with
`printTimes = true` followed by `os.Exit(0)`.  All times in nanoseconds. -/
def dispatchDefault (runDuration elapsed sinceLastPrint : Nat) : BranchResult :=
  let periodic : List Bool := if renderGuard sinceLastPrint then [false] else []
  if 0 < runDuration ∧ runDuration < elapsed then
    ⟨periodic ++ [true], some 0⟩
  else
    ⟨periodic, none⟩

/-- Insertion into a sorted list, building block of the model of `slices.Sort`. -/
def insertSorted (d : Duration) : List Duration → List Duration
  | [] => [d]
  | x :: xs => if d ≤ x then d :: x :: xs else x :: insertSorted d xs

/-- Model of `slices.Sort(successDurations)` (part_000 line 100): an ascending sort
of the latency samples. -/
def sortDurations (l : List Duration) : List Duration :=
  l.foldr insertSorted []

/-- What one `printMetrics` call (part_000 lines 86–142) prints.  Numeric display
formatting (millisecond rounding, float formatting) is abstracted; the fields carry
which blocks are printed and from which data. -/
structure RenderOutput where
  errorBlock : String
  sortedMetricKeys : List String
  avg : Duration
  latencyLine : Option (Duration × Duration × Duration)
deriving DecidableEq

/-- Embedding of `printMetrics` (part_000 lines 86–142).  `errEnum` is the
iteration order of `errorMap`; the metrics map keys are sorted (line 130) while the
error block is emitted in map order (lines 95–97); the latency line carrying
p99/p95/p90 is printed only when `printTimes` is set (lines 138–141). -/
def printMetricsModel (successDurations : List Duration)
    (errEnum : List (String × Nat)) (hasRunDuration : Bool) (printTimes : Bool) :
    RenderOutput :=
  let sorted := sortDurations successDurations
  let p99 := percentile sorted (99/100)
  let p95 := percentile sorted (19/20)
  let p90 := percentile sorted (9/10)
  let baseKeys := ["requests", "elapsed", "rps", "success count", "error count",
    "avg duration"]
  let keys := baseKeys ++ (if hasRunDuration then ["duration"] else [])
  { errorBlock := formattedErrors errEnum
  , sortedMetricKeys := keys.mergeSort (fun a b => decide (a ≤ b))
  , avg := avgDuration sorted
  , latencyLine := if printTimes then some (p99, p95, p90) else none }

/-- CLI configuration (the flags of part_000 `main`, lines 23–28).  `rps` is a Go
float64, modelled as a rational; `runDuration` is `--duration` in nanoseconds with
0 meaning unbounded. -/
structure Config where
  rps : ℚ
  address : String
  authentication : String
  headers : List String
  runDuration : Nat

/-- Result of the startup phase: either `os.Exit(code)` or entering the loop. -/
inductive StartupResult where
  | exited (code : Nat)
  | started
deriving DecidableEq

/-- Embedding of the flag validation in `main` (part_000 lines 31–42): only `rps`
and `address` are checked before the dispatch loop starts; the header strings are
not inspected at startup in any variant. -/
def validateFlags (c : Config) : StartupResult :=
  if c.rps ≤ 0 then StartupResult.exited 1
  else if c.address = "" then StartupResult.exited 1
  else StartupResult.started

/-- What processing one header string does inside a request executor. -/
inductive HeaderAction where
  | apply (name value : String)
  | skipContinue
  | exitProcess (code : Nat)
deriving DecidableEq

/-- Embedding of the header loop body in the basic variants (main.go lines 78–85,
part_001 lines 93–100): a malformed header is logged and skipped (`continue`). -/
def headerActionBasic (h : String) : HeaderAction :=
  let parts := splitOnColon h
  if parts.length != 2 then HeaderAction.skipContinue
  else HeaderAction.apply (parts.getD 0 "") (parts.getD 1 "")

/-- Embedding of the header loop body in the duration-sampling variant (part_000
lines 179–187): a malformed header calls `os.Exit(1)` from inside the executing
request goroutine. -/
def headerActionTimed (h : String) : HeaderAction :=
  let parts := splitOnColon h
  if parts.length != 2 then HeaderAction.exitProcess 1
  else HeaderAction.apply (parts.getD 0 "") (parts.getD 1 "")

/-- The result of `http.NewRequest` and `client.Do` for one request attempt:
request construction fails, the transport call fails (in which case Go's
`http.Client.Do` returns a nil response), or a response with a status code
arrives. -/
inductive TransportResult where
  | createErr
  | transportErr
  | response (status : Nat)
deriving DecidableEq

/-- Wall-clock cost (ns) of each phase of one request attempt, used to model the
timestamps `time.Now()` / `time.Since(start)` taken inside `doRequest`. -/
structure RequestTiming where
  createDur : Nat
  headersDur : Nat
  networkDur : Nat
  drainDur : Nat
deriving DecidableEq

/-- The Outcome data type: success with elapsed latency, or categorized failure. -/
inductive Outcome where
  | success (latency : Duration)
  | failure (category : String)
deriving DecidableEq

/-- How one `doRequest` goroutine terminates: it delivers one Outcome on a channel,
calls `os.Exit`, or panics (a nil-pointer dereference crashes the whole process). -/
inductive ExecResult where
  | delivered (o : Outcome)
  | exit (code : Nat)
  | panicked
deriving DecidableEq

/-- Embedding of `doRequest` in the duration-sampling variant (part_000 lines
171–205), following the statement order of the source:
`start := time.Now()` (line 173) is taken before `http.NewRequest`;
a creation error sends "Error creating request" and returns (lines 174–178);
the header loop may call `os.Exit(1)` (lines 179–187);
`client.Do` is followed immediately by `io.Copy(io.Discard, resp.Body)` (line 192)
— when `client.Do` returned an error, `resp` is nil and this dereference panics, so
the `err != nil` branch that would send "Error making request" is never reached;
`elapsed := time.Since(start)` (line 197) is measured after the body is drained, so
a success latency spans creation + header application + network call + body drain;
a non-200 status sends the status code rendered in decimal (lines 198–202). -/
def doRequest (headers : List String) (t : RequestTiming) (tr : TransportResult) :
    ExecResult :=
  match tr with
  | TransportResult.createErr =>
      ExecResult.delivered (Outcome.failure "Error creating request")
  | TransportResult.transportErr =>
      if hasMalformedHeader headers then ExecResult.exit 1
      else ExecResult.panicked
  | TransportResult.response status =>
      if hasMalformedHeader headers then ExecResult.exit 1
      else
        let elapsed : Duration := t.createDur + t.headersDur + t.networkDur + t.drainDur
        if status != 200 then ExecResult.delivered (Outcome.failure (toString status))
        else ExecResult.delivered (Outcome.success elapsed)

theorem clampSeq_eq_clamp (idx n : ℤ) (h : 1 ≤ n) :
    clampSeq idx n = min (max idx 0) (n - 1) := by
  dsimp only [clampSeq]
  split_ifs <;> omega

/-- C1: for every non-empty sorted sample list and p in the set 0.90/0.95/0.99, the
source `percentile` returns the element at index ceil(p*n)-1 clamped to [0, n-1]
(the spec's nearest-rank formula); in particular for samples 10ms..50ms, p90 is 50ms. -/
theorem percentile_nearest_rank :
    (∀ (l : List Duration) (p : ℚ), l ≠ [] →
      List.Sorted (fun a b : Duration => a ≤ b) l →
      (p = 9/10 ∨ p = 19/20 ∨ p = 99/100) →
      percentile l p = percentileSpec l p) ∧
    percentile [10000000, 20000000, 30000000, 40000000, 50000000] (9/10) = 50000000 := by
  constructor
  · intro l p hne _ _
    have hlen : l.length ≠ 0 := fun h => hne (List.length_eq_zero.mp h)
    have hpos : (1 : ℤ) ≤ (l.length : ℤ) := by
      exact_mod_cast Nat.one_le_iff_ne_zero.mpr hlen
    unfold percentile percentileSpec clampedRankIndex
    rw [if_neg hlen, clampSeq_eq_clamp _ _ hpos]
  · have hc : (⌈(9/10 : ℚ) * (5 : ℚ)⌉ : ℤ) = 5 := by
      rw [Int.ceil_eq_iff]
      constructor <;> norm_num
    simp [percentile, clampSeq, hc]

/-- Witness for C1 at a concrete input. -/
theorem percentile_nearest_rank_witness :
    percentile [7] (9/10) = percentileSpec [7] (9/10) :=
  percentile_nearest_rank.1 [7] (9/10) (by decide) (List.sorted_singleton 7) (Or.inl rfl)

/-- C5: on an empty sample set every percentile and the average are the zero
duration; neither computation signals an error. -/
theorem empty_samples_zero (p : ℚ) :
    percentile [] p = 0 ∧ avgDuration [] = 0 :=
  ⟨rfl, rfl⟩

/-- C9 counterexample: for samples `[1ns, 2ns]` the code reports 1ns but the
arithmetic mean is 3/2 ns, so the reported average is not the exact mean. -/
theorem avg_not_exact_mean :
    ((avgDuration [1, 2] : ℚ)) ≠
      ((([1, 2] : List Duration).sum : ℚ) / ((([1, 2] : List Duration).length : ℚ)) ) := by
  have h1 : avgDuration [1, 2] = 1 := rfl
  rw [h1]
  norm_num

/-- C9 amended: the reported average is the arithmetic mean rounded down to a whole
nanosecond (Go integer division of the nanosecond sum by the count); it equals the
exact mean exactly when the count divides the sum. -/
theorem avg_floor_mean (l : List Duration) (h : l ≠ []) :
    avgDuration l = ⌊((l.sum : ℚ)) / ((l.length : ℚ))⌋₊ := by
  have hpos : 0 < l.length := List.length_pos.mpr h
  unfold avgDuration
  rw [if_pos hpos, Nat.floor_div_eq_div]

/-- Witness for C9's amended statement at a concrete input. -/
theorem avg_floor_mean_witness :
    avgDuration [1, 2, 3] = ⌊((([1, 2, 3] : List Duration).sum : ℚ)) /
      ((([1, 2, 3] : List Duration).length : ℚ))⌋₊ :=
  avg_floor_mean [1, 2, 3] (by decide)

/-- C6: the render guard is inverted.  At 1µs after the previous render (less than
one second) the code renders, and at 2s after (at least one second) it does not —
the opposite of the claimed render-iff-one-second-elapsed behavior. -/
theorem render_guard_inverted :
    (dispatchDefault 0 5000000000 1000).renders = [false] ∧
    ¬ (1000000000 ≤ 1000) ∧
    (dispatchDefault 0 5000000000 2000000000).renders = [] ∧
    1000000000 ≤ 2000000000 := by
  refine ⟨by decide, by norm_num, by decide, by norm_num⟩

/-- C7: when runDuration is positive and elapsed time exceeds it, the default
branch performs a final render and exits with status 0; the final render is the
only one with printTimes set, and the latency (percentile) line is printed exactly
when printTimes is set. -/
theorem final_render_exit_and_percentiles :
    (∀ runDuration elapsed sinceLastPrint : Nat,
      0 < runDuration → runDuration < elapsed →
        (dispatchDefault runDuration elapsed sinceLastPrint).exitCode = some 0 ∧
        (dispatchDefault runDuration elapsed sinceLastPrint).renders.getLast? =
          some true ∧
        ∀ b ∈ (dispatchDefault runDuration elapsed sinceLastPrint).renders.dropLast,
          b = false) ∧
    (∀ runDuration elapsed sinceLastPrint : Nat,
      ¬ (0 < runDuration ∧ runDuration < elapsed) →
        (dispatchDefault runDuration elapsed sinceLastPrint).exitCode = none ∧
        ∀ b ∈ (dispatchDefault runDuration elapsed sinceLastPrint).renders,
          b = false) ∧
    (∀ (sd : List Duration) (errEnum : List (String × Nat))
        (hasRunDuration printTimes : Bool),
      (printMetricsModel sd errEnum hasRunDuration printTimes).latencyLine.isSome =
        printTimes) := by
  refine ⟨?_, ?_, ?_⟩
  · intro rd el slp h1 h2
    unfold dispatchDefault
    rw [if_pos (And.intro h1 h2)]
    by_cases hg : renderGuard slp <;> simp [hg]
  · intro rd el slp h
    unfold dispatchDefault
    rw [if_neg h]
    by_cases hg : renderGuard slp <;> simp [hg]
  · intro sd errEnum hasRunDuration printTimes
    cases printTimes <;> simp [printMetricsModel]

/-- Witness for C7 at a concrete input. -/
theorem final_render_exit_and_percentiles_witness :
    (dispatchDefault 1 2 5).exitCode = some 0 ∧
    (dispatchDefault 1 2 5).renders.getLast? = some true ∧
    ∀ b ∈ (dispatchDefault 1 2 5).renders.dropLast, b = false :=
  final_render_exit_and_percentiles.1 1 2 5 (by decide) (by decide)

/-- C8 counterexample: two enumerations of the same error tally (both are possible
Go map iteration orders) yield different error-breakdown strings, so renders of the
same snapshot need not produce identical output and the order is not sorted. -/
theorem error_breakdown_order_dependent :
    List.Perm ([("500", 2), ("timeout", 1)] : List (String × Nat))
      [("timeout", 1), ("500", 2)] ∧
    formattedErrors [("500", 2), ("timeout", 1)] ≠
      formattedErrors [("timeout", 1), ("500", 2)] := by
  exact ⟨by decide, by decide⟩

/-- C8 amended: the error breakdown is one line per tally entry in map-iteration
order; that order is unspecified, so the output is determined by the tally only up
to a permutation of its lines (the metrics key line, by contrast, is sorted). -/
theorem error_breakdown_permutation :
    (∀ e1 e2 : List (String × Nat), List.Perm e1 e2 →
      List.Perm (errorLines e1) (errorLines e2)) ∧
    (∀ (e : List (String × Nat)) (kv : String × Nat),
      formattedErrors (e ++ [kv]) = formattedErrors e ++ errorLine kv) := by
  constructor
  · intro e1 e2 h
    exact h.map errorLine
  · intro e kv
    simp [formattedErrors, List.foldl_append]

/-- Witness for C8's amended statement at concrete enumerations. -/
theorem error_breakdown_permutation_witness :
    List.Perm (errorLines [("500", 2), ("timeout", 1)])
      (errorLines [("timeout", 1), ("500", 2)]) :=
  error_breakdown_permutation.1 [("500", 2), ("timeout", 1)]
    [("timeout", 1), ("500", 2)] (by decide)

/-- C3: in the duration-sampling variant a request-creation failure does deliver a
Failure Outcome and return, but a transport failure reaches the nil-response body
drain and panics, crashing the process instead of recording a Failure — the code
contradicts the never-fatal claim. -/
theorem transport_error_panics :
    doRequest [] ⟨1, 2, 3, 4⟩ TransportResult.transportErr = ExecResult.panicked ∧
    doRequest [] ⟨1, 2, 3, 4⟩ TransportResult.createErr =
      ExecResult.delivered (Outcome.failure "Error creating request") :=
  ⟨rfl, rfl⟩

/-- C4 counterexample: the header string "Foo" does not split into two parts on the
colon, yet startup validation accepts a configuration carrying it (only rps and
address are checked before any request is issued), and the basic variant's header
loop merely skips it without exiting. -/
theorem malformed_header_passes_startup :
    malformedHeader "Foo" = true ∧
    validateFlags ⟨1, "http://localhost:8080", "", ["Foo"], 0⟩ =
      StartupResult.started ∧
    headerActionBasic "Foo" = HeaderAction.skipContinue := by
  refine ⟨by decide, ?_, by decide⟩
  unfold validateFlags
  rw [if_neg (by norm_num), if_neg (by decide)]

/-- C4 amended: startup validation never rejects a malformed header (it checks only
rps and address); in the duration-sampling variant the executing request goroutine
calls os.Exit(1) when it reaches the malformed header — after the request was
issued, not at startup — while the basic variants log and skip it. -/
theorem malformed_header_policy :
    (∀ c : Config, 0 < c.rps → c.address ≠ "" →
      validateFlags c = StartupResult.started) ∧
    (∀ h : String, malformedHeader h = true →
      headerActionTimed h = HeaderAction.exitProcess 1) ∧
    (∀ h : String, malformedHeader h = true →
      headerActionBasic h = HeaderAction.skipContinue) ∧
    (∀ (headers : List String) (t : RequestTiming) (status : Nat),
      hasMalformedHeader headers = true →
        doRequest headers t (TransportResult.response status) = ExecResult.exit 1) := by
  refine ⟨?_, ?_, ?_, ?_⟩
  · intro c h1 h2
    unfold validateFlags
    rw [if_neg (not_le.mpr h1), if_neg h2]
  · intro h hm
    simp only [malformedHeader] at hm
    simp [headerActionTimed, hm]
  · intro h hm
    simp only [malformedHeader] at hm
    simp [headerActionBasic, hm]
  · intro headers t status hm
    simp [doRequest, hm]

/-- Witness for C4's amended statement at concrete inputs. -/
theorem malformed_header_policy_witness :
    validateFlags ⟨2, "http://localhost:8080", "", ["Foo"], 0⟩ =
      StartupResult.started ∧
    headerActionTimed "Foo" = HeaderAction.exitProcess 1 ∧
    doRequest ["Foo"] ⟨0, 0, 0, 0⟩ (TransportResult.response 200) =
      ExecResult.exit 1 :=
  ⟨malformed_header_policy.1 ⟨2, "http://localhost:8080", "", ["Foo"], 0⟩
      (by norm_num) (by decide),
   malformed_header_policy.2.1 "Foo" (by decide),
   malformed_header_policy.2.2.2 ["Foo"] ⟨0, 0, 0, 0⟩ 200 (by decide)⟩

/-- C10: with well-formed headers and a 200 response, the delivered success latency
is the whole span from before request construction through header application, the
network call and the body drain — at least the network-plus-drain time, not only
the network round trip. -/
theorem success_latency_includes_setup :
    ∀ (headers : List String) (t : RequestTiming),
      hasMalformedHeader headers = false →
        doRequest headers t (TransportResult.response 200) =
          ExecResult.delivered (Outcome.success
            (t.createDur + t.headersDur + t.networkDur + t.drainDur)) ∧
        t.networkDur + t.drainDur ≤
          t.createDur + t.headersDur + t.networkDur + t.drainDur := by
  intro headers t hm
  constructor
  · simp [doRequest, hm]
  · omega

/-- Witness for C10 at a concrete input. -/
theorem success_latency_includes_setup_witness :
    doRequest ["A:b"] ⟨1, 2, 3, 4⟩ (TransportResult.response 200) =
      ExecResult.delivered (Outcome.success (1 + 2 + 3 + 4)) ∧
    3 + 4 ≤ 1 + 2 + 3 + 4 :=
  success_latency_includes_setup ["A:b"] ⟨1, 2, 3, 4⟩ (by decide)

/-- State observable at the head of the part_000 dispatch loop (lines 44–82):
the loop-local counters and collections, plus `inFlight`, the number of launched
request goroutines whose single Outcome has not yet been received, and `ingested`,
the number of Outcomes received so far (ghost counter for the invariant). -/
structure RunState where
  requests : Nat
  successCount : Nat
  errorCount : Nat
  successDurations : List Duration
  errors : List String
  inFlight : Nat
  ingested : Nat
deriving DecidableEq

/-- The state on entering the loop (part_000 lines 44–55). -/
def initState : RunState :=
  ⟨0, 0, 0, [], [], 0, 0⟩

/-- One observable transition of the part_000 dispatch loop: launching an admitted
request (default branch, lines 66–69; each part_000 `doRequest` goroutine delivers
at most one Outcome before returning) or receiving one pending Outcome in a select
case (lines 59–64). -/
inductive DStep : RunState → RunState → Prop where
  | launch (s : RunState) :
      DStep s ⟨s.requests + 1, s.successCount, s.errorCount, s.successDurations,
        s.errors, s.inFlight + 1, s.ingested⟩
  | deliverSuccess (s : RunState) (d : Duration) (h : 0 < s.inFlight) :
      DStep s ⟨s.requests, s.successCount + 1, s.errorCount,
        s.successDurations ++ [d], s.errors, s.inFlight - 1, s.ingested + 1⟩
  | deliverError (s : RunState) (m : String) (h : 0 < s.inFlight) :
      DStep s ⟨s.requests, s.successCount, s.errorCount + 1, s.successDurations,
        s.errors ++ [m], s.inFlight - 1, s.ingested + 1⟩

/-- The states the part_000 dispatch loop can reach from startup. -/
def DReachable (s : RunState) : Prop :=
  Relation.ReflTransGen DStep initState s

/-- Messages a part_001 `doRequest` goroutine sends for a completed HTTP exchange
(lines 104–118): for a non-200 status it sends on the error channel AND then —
there is no `return` — on the success channel; for a 200 it sends one success. -/
inductive Msg where
  | success
  | error
deriving DecidableEq

/-- The channel messages one part_001 request with the given status produces. -/
def countingMessages (status : Nat) : List Msg :=
  (if status != 200 then [Msg.error] else []) ++ [Msg.success]

/-- Loop state of the part_001 counting variant: counters plus the messages sent by
finished requests but not yet received by the loop. -/
structure CState where
  requests : Nat
  successCount : Nat
  errorCount : Nat
  pending : List Msg
deriving DecidableEq

/-- Initial loop state of the counting variant (part_001 lines 41–48). -/
def cInit : CState :=
  ⟨0, 0, 0, []⟩

/-- One observable transition of the part_001 loop: launching a request that
completes with some status (default branch, lines 57–60, with the goroutine's sends
queued), or receiving one queued message in a select case (lines 52–55). -/
inductive CStep : CState → CState → Prop where
  | launch (s : CState) (status : Nat) :
      CStep s ⟨s.requests + 1, s.successCount, s.errorCount,
        s.pending ++ countingMessages status⟩
  | drainSuccess (s : CState) (rest : List Msg) (h : s.pending = Msg.success :: rest) :
      CStep s ⟨s.requests, s.successCount + 1, s.errorCount, rest⟩
  | drainError (s : CState) (rest : List Msg) (h : s.pending = Msg.error :: rest) :
      CStep s ⟨s.requests, s.successCount, s.errorCount + 1, rest⟩

/-- The states the part_001 loop can reach from startup. -/
def CReachable (s : CState) : Prop :=
  Relation.ReflTransGen CStep cInit s

/-- C2 counterexample: in the part_001 counting variant, one request answered with
a non-200 status sends both an error and a success message, so the loop reaches a
state with requestsIssued = 1 but successCount + errorCount = 2, violating
requestsIssued >= successCount + errorCount. -/
theorem counting_variant_outcome_invariant_fails :
    CReachable ⟨1, 1, 1, []⟩ ∧ ¬ ((1 : Nat) + 1 ≤ 1) := by
  constructor
  · have s1 : CStep cInit ⟨1, 0, 0, [Msg.error, Msg.success]⟩ :=
      CStep.launch cInit 500
    have s2 : CStep ⟨1, 0, 0, [Msg.error, Msg.success]⟩ ⟨1, 0, 1, [Msg.success]⟩ :=
      CStep.drainError _ [Msg.success] rfl
    have s3 : CStep ⟨1, 0, 1, [Msg.success]⟩ ⟨1, 1, 1, []⟩ :=
      CStep.drainSuccess _ [] rfl
    exact Relation.ReflTransGen.tail
      (Relation.ReflTransGen.tail (Relation.ReflTransGen.single s1) s2) s3
  · omega

/-- C2 amended: in the duration-sampling variant (part_000), where every executed
request delivers at most one Outcome, every reachable dispatch-loop state satisfies
successCount + errorCount = number of Outcomes ingested and
requestsIssued >= successCount + errorCount; in the part_001 counting variant the
second inequality fails (see the counterexample). -/
theorem timed_variant_outcome_invariant :
    ∀ s : RunState, DReachable s →
      s.successCount + s.errorCount = s.ingested ∧
      s.successCount + s.errorCount ≤ s.requests := by
  have key : ∀ s : RunState, DReachable s →
      s.successCount + s.errorCount = s.ingested ∧
      s.successCount + s.errorCount + s.inFlight = s.requests := by
    intro s h
    induction h with
    | refl => exact ⟨rfl, rfl⟩
    | tail hr hstep ih =>
      obtain ⟨ih1, ih2⟩ := ih
      cases hstep with
      | launch => exact ⟨ih1, by dsimp; omega⟩
      | deliverSuccess d h => exact ⟨by dsimp; omega, by dsimp; omega⟩
      | deliverError m h => exact ⟨by dsimp; omega, by dsimp; omega⟩
  intro s h
  obtain ⟨h1, h2⟩ := key s h
  exact ⟨h1, by omega⟩

/-- Witness for C2's amended statement at a concrete reachable state. -/
theorem timed_variant_outcome_invariant_witness :
    (1 : Nat) + 0 = 1 ∧ (1 : Nat) + 0 ≤ 1 :=
  timed_variant_outcome_invariant ⟨1, 1, 0, [5], [], 0, 1⟩
    (Relation.ReflTransGen.tail
      (Relation.ReflTransGen.single (DStep.launch initState))
      (DStep.deliverSuccess ⟨1, 0, 0, [], [], 1, 0⟩ 5 Nat.one_pos))

end GoReq
